import Mathlib

/-!
Shallow embedding of the PhotoGPT retrieval engine
(`src/faiss_utils.py`, `src/online_query.py`, `src/person_manager.py`,
and the semantic-search guard of `app.py`).

Modelling conventions:
* float32 vectors and similarities are modelled over `ℚ`;
* Python's insertion-ordered `dict` is an association list;
* Python's stable `list.sort` / `sorted` is modelled by a stable
  insertion sort (`pySortBy`), extensionally equal to any stable sort
  with the same comparator;
* console printing is not modelled, and the numeric values interpolated
  into user-facing message strings are omitted (only the fixed text of
  each message is kept);
* raised exceptions are modelled by explicit error values (`PyErr`).
-/

deriving instance DecidableEq for Except

namespace PhotoGPT

/-- Insert `x` into `l`, in front of the first element `y` with `le x y`.
Inserting before (not after) the elements equivalent to `x` makes the
sort stable. -/
def insertOrd (le : α → α → Bool) (x : α) : List α → List α
  | [] => [x]
  | y :: ys => if le x y then x :: y :: ys else y :: insertOrd le x ys

/-- Stable sort, the model of Python's `list.sort` / `sorted` (both stable). -/
def pySortBy (le : α → α → Bool) : List α → List α
  | [] => []
  | x :: xs => insertOrd le x (pySortBy le xs)

/-- An embedding vector (float32 in the code, modelled over `ℚ`). -/
abbrev Embedding := List ℚ

/-- Squared L2 distance, the quantity returned by the flat FAISS index. -/
def sqDist (q v : Embedding) : ℚ :=
  (List.zipWith (fun a b => (a - b) ^ 2) q v).sum

/-- One record of `metadata.json` (written by `src/offline_indexing.py`):
`image_path` is always present, the remaining JSON keys are optional and
are read with `.get(...)` defaults by the query code. -/
structure MetaRecord where
  image_path : String
  mode : Option String := none
  bbox : Option (List Int) := none
  det_score : Option ℚ := none
deriving DecidableEq, Repr

/-- Comparator of the external FAISS search over `(ordinal, distance)`
candidates: ascending squared distance, ties broken by ascending ordinal
(the deterministic contract of the exact flat index; FAISS itself is an
external library, not code of this repository). -/
def distOrd (a b : Nat × ℚ) : Bool :=
  decide (a.2 < b.2 ∨ (a.2 = b.2 ∧ a.1 ≤ b.1))

/-- Model of `faiss.IndexFlatL2.search` as used by `FaissIndexManager.search`:
exact k-nearest-neighbour search over the stored vectors, returning
`(squared L2 distance, ordinal)` pairs in ascending-distance order, padded
with the invalid marker `-1` when fewer than `k` vectors are stored (the
padding distance is irrelevant: every caller skips `-1` entries). -/
def faissSearch (vs : List Embedding) (q : Embedding) (k : Nat) : List (ℚ × Int) :=
  let sorted := pySortBy distOrd (vs.map (fun v => sqDist q v)).enum
  (sorted.take k).map (fun c => (c.2, (c.1 : Int))) ++
    List.replicate (k - vs.length) ((4 : ℚ), (-1 : Int))

/-- Python exceptions raised by the modelled code. -/
inductive PyErr where
  | valueError (msg : String)
  | fileNotFound (msg : String)
  | typeError (msg : String)
deriving DecidableEq, Repr

/-- Mutable state of `FaissIndexManager`: the loaded index (or `None`) and
the metadata list (initially `[]`). -/
structure FaissState where
  index : Option (List Embedding)
  metadata : List MetaRecord
deriving DecidableEq, Repr

/-- One entry of the list returned by `search_with_threshold`. -/
structure SearchResult where
  face_id : Int
  similarity : ℚ
  distance : ℚ
  metadata : Option MetaRecord
deriving DecidableEq, Repr

/-- Model of `FaissIndexManager.search`: `ValueError` when no index is
loaded, else the raw FAISS `(distance, index)` pairs. -/
def FaissState.search (st : FaissState) (q : Embedding) (k : Nat) :
    Except PyErr (List (ℚ × Int)) :=
  match st.index with
  | none => .error (.valueError "No index loaded. Load or create index first.")
  | some vs => .ok (faissSearch vs q k)

/-- Loop body of `search_with_threshold`: skip the `-1` marker, convert
the squared distance to cosine similarity `1 - d/2`, keep only candidates
with `similarity >= threshold`, and attach `metadata[idx]` when `idx` is in
range (else `None`). -/
def toResult (meta : List MetaRecord) (t : ℚ) (di : ℚ × Int) : Option SearchResult :=
  if di.2 = -1 then none
  else if t ≤ 1 - di.1 / 2 then
    some ⟨di.2, 1 - di.1 / 2, di.1, meta[di.2.toNat]?⟩
  else none

/-- Descending-similarity comparator of the final
`results.sort(key=..., reverse=True)` (a stable sort on the similarity key). -/
def simOrd (a b : SearchResult) : Bool := decide (b.similarity ≤ a.similarity)

/-- Body of `FaissIndexManager.search_with_threshold` once an index is
loaded. -/
def swtResults (vs : List Embedding) (meta : List MetaRecord) (q : Embedding)
    (t : ℚ) (k : Nat) : List SearchResult :=
  pySortBy simOrd ((faissSearch vs q k).filterMap (toResult meta t))

/-- Model of `FaissIndexManager.search_with_threshold`. -/
def FaissState.search_with_threshold (st : FaissState) (q : Embedding) (t : ℚ)
    (k : Nat) : Except PyErr (List SearchResult) :=
  match st.index with
  | none => .error (.valueError "No index loaded. Load or create index first.")
  | some vs => .ok (swtResults vs st.metadata q t k)

/-- On-disk index files: path → stored vectors. -/
abbrev IndexFS := String → Option (List Embedding)

/-- On-disk metadata files: path → record list. -/
abbrev MetaFS := String → Option (List MetaRecord)

/-- Model of `FaissIndexManager.load_index`: existence is checked before
anything is read, so a missing path raises `FileNotFoundError` with the
state untouched. -/
def load_index (fs : IndexFS) (p : String) (st : FaissState) :
    Option PyErr × FaissState :=
  match fs p with
  | none => (some (.fileNotFound ("Index file not found: " ++ p)), st)
  | some vs => (none, { st with index := some vs })

/-- Model of `FaissIndexManager.save_index`: `ValueError` when no index
exists (and nothing is written); otherwise writes the index file at `p`. -/
def save_index (fs : IndexFS) (p : String) (st : FaissState) :
    Option PyErr × IndexFS :=
  match st.index with
  | none => (some (.valueError "No index to save. Create index first."), fs)
  | some vs => (none, fun q => if q = p then some vs else fs q)

/-- Model of `FaissIndexManager.load_metadata`. -/
def load_metadata (fs : MetaFS) (p : String) (st : FaissState) :
    Option PyErr × FaissState :=
  match fs p with
  | none => (some (.fileNotFound ("Metadata file not found: " ++ p)), st)
  | some ms => (none, { st with metadata := ms })

/-- Model of `PhotoRetriever.__init__`: loads the index and then the
metadata into a fresh manager (`index = None`, `metadata = []`),
re-raising `FileNotFoundError`; no consistency check relates the two
files. -/
def retriever_init (fsI : IndexFS) (fsM : MetaFS) (ip mp : String) :
    Except PyErr FaissState :=
  match load_index fsI ip ⟨none, []⟩ with
  | (some e, _) => .error e
  | (none, st1) =>
    match load_metadata fsM mp st1 with
    | (some e, _) => .error e
    | (none, st2) => .ok st2

/-- Per-face entry of a face-mode photo group (`face_info` in the code,
with the `.get` defaults applied). -/
structure FaceInfo where
  bbox : List Int
  similarity : ℚ
  det_score : ℚ
deriving DecidableEq, Repr

/-- One matched photo (`photo_info` in the code). In full-image mode
`faces` is empty and `similarity` is set; in face mode `similarity` is
absent (`none`) and `faces` collects the contributing matches. -/
structure PhotoGroup where
  image_path : String
  faces : List FaceInfo
  max_similarity : ℚ
  avg_similarity : ℚ
  num_matches : Nat
  similarity : Option ℚ := none
deriving DecidableEq, Repr

/-- The `query_info` dictionary of a query result. -/
inductive QueryInfo where
  | emptyInfo
  | textInfo (query_text : String) (embedding_dim : Nat) (threshold : ℚ)
  | faceInfo (selfie_path : String) (embedding_dim : Nat) (threshold : ℚ)
  | personInfo (person_name : Option String) (embedding_dim : Nat) (threshold : ℚ)
deriving DecidableEq, Repr

/-- The structured result dictionary returned by the photo-finding
operations. -/
structure QueryResult where
  success : Bool
  message : String
  query_info : QueryInfo
  matches' : List PhotoGroup
  total_photos : Nat
deriving DecidableEq, Repr

/-- Initial `result` dictionary of `find_photos` and
`find_photos_by_embedding`. -/
def emptyResult : QueryResult := ⟨false, "", .emptyInfo, [], 0⟩

/-- The external Embedding Provider (`FaceProcessor` in `face_utils.py`, a
vision model outside the engine): CLIP text encoding and single-face
embedding extraction (`None` when no single clear face is detected). -/
structure Provider where
  encode_text : String → Embedding
  extract_single_face : String → Option Embedding

/-- Python truthiness of an optional string argument (`None` and `""` are
falsy). -/
def truthy : Option String → Bool
  | none => false
  | some s => !(s == "")

/-- Build the `face_info` dictionary for one surviving match (with the
`.get('bbox', ...)` and `.get('det_score', ...)` defaults of the code). -/
def matchFace (md : MetaRecord) (s : ℚ) : FaceInfo :=
  ⟨md.bbox.getD [0, 0, 0, 0], s, md.det_score.getD 1⟩

/-- Running-maximum update of the grouping loop (`if sim > max: max = sim`,
starting from the `0.0` each group is created with). -/
def maxIfGt (a s : ℚ) : ℚ := if s > a then s else a

/-- One iteration of the face-mode grouping loop: create the group on first
sight of an image path (with `max_similarity` initialised to `0.0`), append
the face, and update the running maximum. -/
def addFace : List PhotoGroup → String → FaceInfo → List PhotoGroup
  | [], p, fi => [⟨p, [fi], maxIfGt 0 fi.similarity, 0, 0, none⟩]
  | g :: gs, p, fi =>
    if g.image_path = p then
      { g with faces := g.faces ++ [fi],
               max_similarity := maxIfGt g.max_similarity fi.similarity } :: gs
    else g :: addFace gs p fi

/-- The whole face-mode grouping pass (`photo_groups` construction; both
`find_photos` and `find_photos_by_embedding` run this same loop). -/
def buildGroups (xs : List (String × FaceInfo)) : List PhotoGroup :=
  xs.foldl (fun gs x => addFace gs x.1 x.2) []

/-- Extract `(image_path, face_info)` from each surviving match and group;
a match whose metadata is `None` (ordinal beyond the metadata list) raises
`TypeError` when subscripted. -/
def groupFaces (ms : List SearchResult) : Except PyErr (List PhotoGroup) :=
  (ms.mapM (fun (m : SearchResult) =>
    match m.metadata with
    | none => (Except.error (PyErr.typeError "NoneType object is not subscriptable") :
        Except PyErr (String × FaceInfo))
    | some md => Except.ok (md.image_path, matchFace md m.similarity))).map buildGroups

/-- Compute `avg_similarity` and `num_matches` for a finished group. -/
def finalizeGroup (g : PhotoGroup) : PhotoGroup :=
  { g with
    avg_similarity := (g.faces.map (fun f => f.similarity)).sum / (g.faces.length : ℚ),
    num_matches := g.faces.length }

/-- Descending `max_similarity` comparator of the final photo sort. -/
def photoOrd (a b : PhotoGroup) : Bool := decide (b.max_similarity ≤ a.max_similarity)

/-- Mode inference: the `mode` of the first metadata record, defaulting to
`face` (also for an empty metadata list). -/
def metaMode (meta : List MetaRecord) : String :=
  match meta with
  | [] => "face"
  | m :: _ => m.mode.getD "face"

/-- Search-and-aggregate tail of `find_photos`, from the
`search_with_threshold` call to the returned result dictionary (shared by
the text and selfie branches, which differ only in `query_info`). -/
def findPhotosTail (st : FaissState) (q : Embedding) (qi : QueryInfo)
    (t : ℚ) (k : Nat) : Except PyErr QueryResult := do
  let ms ← st.search_with_threshold q t k
  let base := { emptyResult with query_info := qi }
  if ms.length = 0 then
    return { base with
      message := "No confident matches found. Try lowering the threshold." }
  if metaMode st.metadata = "full_image" then
    let photos ← ms.mapM (fun (m : SearchResult) =>
      match m.metadata with
      | none => (Except.error (PyErr.typeError "NoneType object is not subscriptable") :
          Except PyErr PhotoGroup)
      | some md => Except.ok
          (⟨md.image_path, [], m.similarity, m.similarity, 1, some m.similarity⟩ :
            PhotoGroup))
    let sortedP := pySortBy photoOrd photos
    return { base with
      success := true, matches' := sortedP, total_photos := sortedP.length,
      message := "Found photos matching your query" }
  else
    let gs ← groupFaces ms
    let sortedP := pySortBy photoOrd (gs.map finalizeGroup)
    return { base with
      success := true, matches' := sortedP, total_photos := sortedP.length,
      message := "Found photos matching your query" }

/-- Model of `PhotoRetriever.find_photos`. -/
def find_photos (pr : Provider) (st : FaissState)
    (selfie_path text_query : Option String) (t : ℚ) (k : Nat) :
    Except PyErr QueryResult :=
  if !truthy selfie_path && !truthy text_query then
    .ok { emptyResult with
      message := "Please provide either a selfie or a text description." }
  else if truthy selfie_path && truthy text_query then
    .ok { emptyResult with
      message := "Please provide only one: selfie OR text description." }
  else if truthy text_query then
    let tq := text_query.getD ""
    findPhotosTail st (pr.encode_text tq)
      (.textInfo tq (pr.encode_text tq).length t) t k
  else
    let sp := selfie_path.getD ""
    match pr.extract_single_face sp with
    | none => .ok { emptyResult with message :=
        "No face detected in selfie or multiple faces found. Please upload a clear selfie with only one face." }
    | some q => findPhotosTail st q (.faceInfo sp q.length t) t k

/-- Model of `PhotoRetriever.find_photos_by_embedding` (console printing is
not modelled; the code always groups matches by image path, face-mode
style, regardless of the metadata mode tag). -/
def find_photos_by_embedding (st : FaissState) (q : Embedding) (t : ℚ)
    (k : Nat) (person_name : Option String) : Except PyErr QueryResult := do
  let base := { emptyResult with query_info := .personInfo person_name q.length t }
  let ms ← st.search_with_threshold q t k
  if ms.length = 0 then
    return { base with
      message := "No photos found. Try lowering the threshold." }
  let gs ← groupFaces ms
  let sortedP := pySortBy photoOrd (gs.map finalizeGroup)
  return { base with
    success := true, matches' := sortedP, total_photos := sortedP.length,
    message := "Found event photo(s) containing this person" }

/-- Outcome of the semantic-search flow in the UI layer. -/
inductive AppSearchOutcome where
  | modeError (msg : String)
  | searched (r : QueryResult)
deriving DecidableEq, Repr

/-- Model of the semantic-search path of `app.py` (lines 299-317): with a
loaded retriever and a non-empty text query, the UI first checks the mode
of the first metadata record and refuses — showing an error and performing
no search — unless the index was built in `full_image` mode; only then does
it call `find_photos` with the text query (`max_results` left at its
default 100). -/
def app_semantic_search (pr : Provider) (st : FaissState) (q : String)
    (t : ℚ) : Except PyErr AppSearchOutcome :=
  let modeOk :=
    match st.metadata with
    | [] => true
    | m :: _ => m.mode.getD "face" == "full_image"
  if modeOk then (find_photos pr st none (some q) t 100).map .searched
  else .ok (.modeError
    "Semantic search requires the index to be built in full_image mode!")

/-- Stored profile of one registered person. -/
structure Profile where
  embedding : Embedding
  selfie_path : String
deriving DecidableEq, Repr

/-- Python dict assignment `profiles[name] = v` on an insertion-ordered
dict: replace the value in place when the exact key is present, else
append a new entry. -/
def dictInsert (ps : List (String × Profile)) (k : String) (v : Profile) :
    List (String × Profile) :=
  match ps with
  | [] => [(k, v)]
  | (k0, v0) :: rest =>
    if k0 = k then (k0, v) :: rest else (k0, v0) :: dictInsert rest k v

/-- Result dictionary of `register_person`. -/
structure RegisterOutcome where
  success : Bool
  message : String
deriving DecidableEq, Repr

/-- File-existence oracle (`os.path.exists`). -/
abbrev ExistsFS := String → Bool

/-- Model of Python `str.strip()`: remove leading and trailing whitespace
(structurally recursive, unlike `String.trim`, so that it evaluates in the
kernel). -/
def pyStrip (s : String) : String :=
  ⟨((s.data.dropWhile Char.isWhitespace).reverse.dropWhile Char.isWhitespace).reverse⟩

/-- Model of `PersonManager.register_person`: strip the name, reject empty
names and missing selfie files, extract the face embedding (failures of
the extractor are the `None` case), and store the profile under the exact
stripped name — `self.profiles[name] = ...`, a case-sensitive dict
assignment. `save_profiles` rewrites the whole profile file from the
in-memory store on every mutation, so the store is the authoritative
state. -/
def register_person (pr : Provider) (fs : ExistsFS)
    (ps : List (String × Profile)) (name selfie_path : String) :
    RegisterOutcome × List (String × Profile) :=
  let name := pyStrip name
  if name = "" then (⟨false, "Please enter a name"⟩, ps)
  else if !fs selfie_path then
    (⟨false, "Selfie file not found: " ++ selfie_path⟩, ps)
  else
    match pr.extract_single_face selfie_path with
    | none => (⟨false,
        "No face detected in selfie. Please upload a clear selfie with one face."⟩, ps)
    | some emb =>
      (⟨true, "Successfully registered " ++ name ++ "!"⟩,
        dictInsert ps name ⟨emb, selfie_path⟩)

/-- Ascending lexicographic comparator on names. -/
def nameOrd (a b : String) : Bool := decide (a ≤ b)

/-- Model of `PersonManager.get_all_names`:
`sorted(list(self.profiles.keys()))`. -/
def get_all_names (ps : List (String × Profile)) : List String :=
  pySortBy nameOrd (ps.map Prod.fst)


/-- Group-membership test by image path. -/
def pathKey (p : String) (g : PhotoGroup) : Bool := g.image_path == p

/-- The faces contributed to image path `p` by the `(path, face)` list
`xs`, in processing order. -/
def collect (p : String) (xs : List (String × FaceInfo)) : List FaceInfo :=
  (xs.filter (fun x => x.1 == p)).map Prod.snd

/-! ## Concrete states used by counterexamples and witnesses -/

/-- A provider whose text encoder and face extractor both return `[1]`. -/
def unitProvider : Provider := ⟨fun _ => [1], fun _ => some [1]⟩

/-- A single-photo index built in `face` mode. -/
def faceModeState : FaissState :=
  ⟨some [[1]], [⟨"a.jpg", some "face", some [1, 2, 3, 4], some 1⟩]⟩

/-- A face-mode state with one stored vector `[1]` and no optional keys. -/
def faceState1 : FaissState := ⟨some [[1]], [⟨"a.jpg", some "face", none, none⟩]⟩

/-- A corrupt pair: two stored vectors but a single metadata record. -/
def mismatchedState : FaissState :=
  ⟨some [[1], [1]], [⟨"a.jpg", some "face", some [1, 2, 3, 4], some 1⟩]⟩

/-- A file-existence oracle on which every path exists. -/
def allFilesFS : ExistsFS := fun _ => true

/-! ## Lemmas about the stable sort -/

theorem insertOrd_perm (le : α → α → Bool) (x : α) (l : List α) :
    List.Perm (insertOrd le x l) (x :: l) := by
  induction l with
  | nil => rfl
  | cons y ys ih =>
    simp only [insertOrd]
    split
    · exact List.Perm.refl _
    · exact (ih.cons y).trans (List.Perm.swap x y ys)

theorem pySortBy_perm (le : α → α → Bool) (l : List α) :
    List.Perm (pySortBy le l) l := by
  induction l with
  | nil => rfl
  | cons x xs ih =>
    exact (insertOrd_perm le x (pySortBy le xs)).trans (ih.cons x)

theorem mem_pySortBy {le : α → α → Bool} {a : α} {l : List α} :
    a ∈ pySortBy le l ↔ a ∈ l :=
  (pySortBy_perm le l).mem_iff

theorem length_pySortBy (le : α → α → Bool) (l : List α) :
    (pySortBy le l).length = l.length :=
  (pySortBy_perm le l).length_eq

theorem pairwise_insertOrd {le : α → α → Bool} {x : α} {l : List α}
    (htot : ∀ a b, le a b || le b a)
    (htrans : ∀ a b c, le a b → le b c → le a c)
    (hl : l.Pairwise (fun a b => le a b)) :
    (insertOrd le x l).Pairwise (fun a b => le a b) := by
  induction l with
  | nil => simp [insertOrd]
  | cons y ys ih =>
    rcases hl with _ | ⟨hy, hys⟩
    simp only [insertOrd]
    split
    · refine List.Pairwise.cons ?_ (List.Pairwise.cons hy hys)
      intro b hb
      rcases List.mem_cons.mp hb with rfl | hb
      · assumption
      · exact htrans x y b (by assumption) (hy b hb)
    · refine List.Pairwise.cons ?_ (ih hys)
      intro b hb
      rcases List.mem_cons.mp ((insertOrd_perm le x ys).mem_iff.mp hb) with rfl | hb
      · rcases Bool.or_eq_true _ _ |>.mp (htot b y) with h | h
        · simp_all
        · exact h
      · exact hy b hb

theorem pairwise_pySortBy {le : α → α → Bool} {l : List α}
    (htot : ∀ a b, le a b || le b a)
    (htrans : ∀ a b c, le a b → le b c → le a c) :
    (pySortBy le l).Pairwise (fun a b => le a b) := by
  induction l with
  | nil => simp [pySortBy]
  | cons x xs ih => exact pairwise_insertOrd htot htrans ih

theorem insertOrd_of_le_head {le : α → α → Bool} {x : α} {l : List α}
    (h : ∀ b ∈ l, le x b) : insertOrd le x l = x :: l := by
  cases l with
  | nil => rfl
  | cons y ys => simp [insertOrd, h y (List.mem_cons_self y ys)]

/-- A stable sort leaves an already-sorted list unchanged. -/
theorem pySortBy_of_sorted {le : α → α → Bool} {l : List α}
    (hl : l.Pairwise (fun a b => le a b)) : pySortBy le l = l := by
  induction l with
  | nil => rfl
  | cons x xs ih =>
    rcases hl with _ | ⟨hx, hxs⟩
    simp only [pySortBy, ih hxs]
    exact insertOrd_of_le_head hx


/-! ## C7: load on a missing path -/

/-- C7: `load_index` on a nonexistent path fails with a file-not-found
error and leaves the previously loaded state exactly as it was before the
call (the existence check precedes any mutation). -/
theorem load_index_missing_no_mutation (fs : IndexFS) (p : String)
    (st : FaissState) (h : fs p = none) :
    load_index fs p st =
      (some (.fileNotFound ("Index file not found: " ++ p)), st) := by
  simp [load_index, h]

/-- Witness for C7 at a concrete store, path and prior state. -/
theorem load_index_missing_no_mutation_w :
    load_index (fun _ => none) "data/faiss.index" ⟨some [[1]], []⟩ =
      (some (.fileNotFound ("Index file not found: " ++ "data/faiss.index")),
        (⟨some [[1]], []⟩ : FaissState)) :=
  load_index_missing_no_mutation (fun _ => none) "data/faiss.index"
    ⟨some [[1]], []⟩ rfl

/-! ## C10: save with no index -/

/-- C10: `save_index` in a state where no index has been created or loaded
raises `ValueError` and writes nothing to disk. -/
theorem save_index_requires_index (fs : IndexFS) (p : String)
    (st : FaissState) (h : st.index = none) :
    save_index fs p st =
      (some (.valueError "No index to save. Create index first."), fs) := by
  simp [save_index, h]

/-- Witness for C10 at a concrete store, path and fresh state. -/
theorem save_index_requires_index_w :
    save_index (fun _ => none) "data/faiss.index" ⟨none, []⟩ =
      (some (.valueError "No index to save. Create index first."),
        (fun _ => none : IndexFS)) :=
  save_index_requires_index (fun _ => none) "data/faiss.index" ⟨none, []⟩ rfl

/-! ## C9: input validation precedes any work -/

/-- C9: when both a selfie path and a text query are supplied, or neither,
`find_photos` returns `success = false` with an explanatory message and an
empty match list, before any embedding extraction or index search: the
result is identical for every provider and every index state. -/
theorem input_validation_first (pr : Provider) (st : FaissState)
    (selfie_path text_query : Option String) (t : ℚ) (k : Nat)
    (h : (truthy selfie_path = false ∧ truthy text_query = false) ∨
         (truthy selfie_path = true ∧ truthy text_query = true)) :
    ∃ r, find_photos pr st selfie_path text_query t k = .ok r ∧
      r.success = false ∧ r.message ≠ "" ∧ r.matches' = [] ∧
      ∀ (pr2 : Provider) (st2 : FaissState),
        find_photos pr2 st2 selfie_path text_query t k = .ok r := by
  rcases h with ⟨h1, h2⟩ | ⟨h1, h2⟩
  · refine ⟨{ emptyResult with
        message := "Please provide either a selfie or a text description." },
      ?_, rfl, ?_, rfl, ?_⟩
    · simp [find_photos, h1, h2]
    · simp [emptyResult]
    · intro pr2 st2
      simp [find_photos, h1, h2]
  · refine ⟨{ emptyResult with
        message := "Please provide only one: selfie OR text description." },
      ?_, rfl, ?_, rfl, ?_⟩
    · simp [find_photos, h1, h2]
    · simp [emptyResult]
    · intro pr2 st2
      simp [find_photos, h1, h2]

/-- Witness for C9: both a selfie and a text query supplied. -/
theorem input_validation_first_w :
    ∃ r, find_photos unitProvider faceModeState (some "s.jpg") (some "a dog")
        (1/2) 100 = .ok r ∧
      r.success = false ∧ r.message ≠ "" ∧ r.matches' = [] ∧
      ∀ (pr2 : Provider) (st2 : FaissState),
        find_photos pr2 st2 (some "s.jpg") (some "a dog") (1/2) 100 = .ok r :=
  input_validation_first unitProvider faceModeState (some "s.jpg")
    (some "a dog") (1/2) 100 (Or.inr ⟨by decide, by decide⟩)

/-! ## C2: text query against a face-mode index -/

/-- C2 (counterexample): `find_photos` itself performs no mode check: on a
face-mode index, a text query is searched and aggregated, and here returns
`success = true` with one matched photo instead of failing with a
mode-mismatch condition. -/
theorem text_query_face_mode_cex :
    (find_photos unitProvider faceModeState none (some "a dog") 0 5).map
      (fun r => (r.success, r.total_photos)) = .ok (true, 1) := by
  with_unfolding_all decide

/-- C2 (amended): the mode-mismatch guard lives in the UI layer, not in
`find_photos`: for every text query against an index whose first metadata
record is not in `full_image` mode, the semantic-search path of `app.py`
reports the mode error and returns without performing any search (the
outcome is a constant, independent of the provider and of the stored
vectors). -/
theorem app_mode_guard (pr : Provider) (st : FaissState) (q : String)
    (t : ℚ) (m : MetaRecord) (rest : List MetaRecord)
    (hmeta : st.metadata = m :: rest)
    (hmode : m.mode.getD "face" ≠ "full_image") :
    app_semantic_search pr st q t = .ok (.modeError
      "Semantic search requires the index to be built in full_image mode!") := by
  simp [app_semantic_search, hmeta, hmode]

/-- Witness for C2 at a concrete face-mode state and query. -/
theorem app_mode_guard_w :
    app_semantic_search unitProvider faceModeState "a dog" (1/2) =
      .ok (.modeError
        "Semantic search requires the index to be built in full_image mode!") :=
  app_mode_guard unitProvider faceModeState "a dog" (1/2)
    ⟨"a.jpg", some "face", some [1, 2, 3, 4], some 1⟩ [] rfl (by decide)


/-! ## C1: registration is keyed case-sensitively -/

theorem dictInsert_keys (ps : List (String × Profile)) (k : String)
    (v : Profile) :
    (dictInsert ps k v).map Prod.fst =
      if k ∈ ps.map Prod.fst then ps.map Prod.fst
      else ps.map Prod.fst ++ [k] := by
  induction ps with
  | nil => simp [dictInsert]
  | cons p rest ih =>
    obtain ⟨k0, v0⟩ := p
    by_cases hk : k0 = k
    · subst hk
      simp [dictInsert]
    · by_cases hmem : k ∈ rest.map Prod.fst
      · simp [dictInsert, hk, hmem, ih, Ne.symm hk]
      · simp [dictInsert, hk, hmem, ih, Ne.symm hk]

theorem dictInsert_lookup (ps : List (String × Profile)) (k : String)
    (v : Profile) : (dictInsert ps k v).lookup k = some v := by
  induction ps with
  | nil => simp [dictInsert]
  | cons p rest ih =>
    obtain ⟨k0, v0⟩ := p
    by_cases hk : k0 = k
    · subst hk
      simp [dictInsert]
    · have hb : (k == k0) = false := beq_eq_false_iff_ne.mpr (Ne.symm hk)
      simp [dictInsert, List.lookup, hk, ih, hb]

/-- C1 (counterexample): registering "Ann" and then "ann" (same name up to
case, different selfies) does not overwrite: the store ends with two
entries and `get_all_names` lists both casings, not exactly one entry. -/
theorem register_ann_twice_cex :
    get_all_names (register_person unitProvider allFilesFS
        (register_person unitProvider allFilesFS [] "Ann" "s1.jpg").2
        "ann" "s2.jpg").2 = ["Ann", "ann"] ∧
    (get_all_names (register_person unitProvider allFilesFS
        (register_person unitProvider allFilesFS [] "Ann" "s1.jpg").2
        "ann" "s2.jpg").2).length ≠ 1 := by
  constructor
  · with_unfolding_all decide
  · with_unfolding_all decide

/-- C1 (amended): `register_person` keys the store case-sensitively.
Registering a (stripped, non-empty) name that is already stored with
identical casing overwrites that single entry in place — the key list is
unchanged, the stored profile becomes the new one, and `get_all_names` is
unchanged, so it still returns exactly one entry for that person.
Registering a name that matches an existing entry only case-insensitively
("Ann" then "ann") instead appends a second entry under the new casing. -/
theorem register_person_case_sensitive_keys (pr : Provider) (fs : ExistsFS)
    (ps : List (String × Profile)) (n sp : String) (e : Embedding)
    (hn : pyStrip n = n) (hne : n ≠ "") (hfs : fs sp = true)
    (he : pr.extract_single_face sp = some e) :
    (register_person pr fs ps n sp).1.success = true ∧
    ((register_person pr fs ps n sp).2).map Prod.fst =
      (if n ∈ ps.map Prod.fst then ps.map Prod.fst
       else ps.map Prod.fst ++ [n]) ∧
    ((register_person pr fs ps n sp).2).lookup n = some ⟨e, sp⟩ ∧
    (n ∈ ps.map Prod.fst →
      get_all_names ((register_person pr fs ps n sp).2) = get_all_names ps) := by
  have hreg : register_person pr fs ps n sp =
      (⟨true, "Successfully registered " ++ n ++ "!"⟩,
        dictInsert ps n ⟨e, sp⟩) := by
    simp [register_person, hn, hne, hfs, he]
  refine ⟨by rw [hreg], ?_, ?_, ?_⟩
  · rw [hreg]
    exact dictInsert_keys ps n ⟨e, sp⟩
  · rw [hreg]
    exact dictInsert_lookup ps n ⟨e, sp⟩
  · intro hmem
    rw [hreg]
    unfold get_all_names
    rw [dictInsert_keys ps n ⟨e, sp⟩, if_pos hmem]

/-- Witness for C1: re-registering the exact name "Ann" over an existing
"Ann" entry keeps a single entry and replaces the profile. -/
theorem register_person_case_sensitive_keys_w :
    (register_person unitProvider allFilesFS [("Ann", ⟨[2], "s0.jpg"⟩)]
        "Ann" "s1.jpg").1.success = true ∧
    ((register_person unitProvider allFilesFS [("Ann", ⟨[2], "s0.jpg"⟩)]
        "Ann" "s1.jpg").2).map Prod.fst =
      (if "Ann" ∈ [("Ann", (⟨[2], "s0.jpg"⟩ : Profile))].map Prod.fst
       then [("Ann", (⟨[2], "s0.jpg"⟩ : Profile))].map Prod.fst
       else [("Ann", (⟨[2], "s0.jpg"⟩ : Profile))].map Prod.fst ++ ["Ann"]) ∧
    ((register_person unitProvider allFilesFS [("Ann", ⟨[2], "s0.jpg"⟩)]
        "Ann" "s1.jpg").2).lookup "Ann" = some ⟨[1], "s1.jpg"⟩ ∧
    ("Ann" ∈ [("Ann", (⟨[2], "s0.jpg"⟩ : Profile))].map Prod.fst →
      get_all_names ((register_person unitProvider allFilesFS
          [("Ann", ⟨[2], "s0.jpg"⟩)] "Ann" "s1.jpg").2) =
        get_all_names [("Ann", ⟨[2], "s0.jpg"⟩)]) :=
  register_person_case_sensitive_keys unitProvider allFilesFS
    [("Ann", ⟨[2], "s0.jpg"⟩)] "Ann" "s1.jpg" [1]
    (by with_unfolding_all decide) (by decide) rfl rfl


/-! ## C3: face-mode aggregation per group -/

theorem find?_addFace (gs : List PhotoGroup) (p : String) (fi : FaceInfo)
    (p2 : String) :
    (addFace gs p fi).find? (pathKey p2) =
      if p2 = p then
        match gs.find? (pathKey p) with
        | some g => some { g with
            faces := g.faces ++ [fi],
            max_similarity := maxIfGt g.max_similarity fi.similarity }
        | none => some ⟨p, [fi], maxIfGt 0 fi.similarity, 0, 0, none⟩
      else gs.find? (pathKey p2) := by
  induction gs with
  | nil =>
    by_cases hp : p2 = p
    · subst hp
      simp [addFace, pathKey]
    · simp [addFace, pathKey, hp, beq_eq_false_iff_ne.mpr (Ne.symm hp)]
  | cons g gs ih =>
    by_cases hgp : g.image_path = p
    · have hmod : addFace (g :: gs) p fi =
          { g with faces := g.faces ++ [fi],
                   max_similarity := maxIfGt g.max_similarity fi.similarity } :: gs := by
        simp [addFace, hgp]
      by_cases hp : p2 = p
      · have hg1 : pathKey p2 ({ g with
            faces := g.faces ++ [fi],
            max_similarity := maxIfGt g.max_similarity fi.similarity } :
              PhotoGroup) = true := by
          simp [pathKey, hgp, hp]
        have hg2 : pathKey p g = true := by simp [pathKey, hgp]
        rw [hmod, List.find?_cons_of_pos _ hg1, if_pos hp,
          List.find?_cons_of_pos _ hg2]
      · have hne : ¬ ((g.image_path == p2) = true) := by
          simp only [beq_iff_eq, hgp]
          exact fun hc => hp hc.symm
        have hg1 : ¬ (pathKey p2 ({ g with
            faces := g.faces ++ [fi],
            max_similarity := maxIfGt g.max_similarity fi.similarity } :
              PhotoGroup) = true) := hne
        have hg2 : ¬ (pathKey p2 g = true) := hne
        rw [hmod, List.find?_cons_of_neg _ hg1, if_neg hp,
          List.find?_cons_of_neg _ hg2]
    · have hmod : addFace (g :: gs) p fi = g :: addFace gs p fi := by
        simp [addFace, hgp]
      rw [hmod]
      by_cases hgp2 : g.image_path = p2
      · have hgk : pathKey p2 g = true := by simp [pathKey, hgp2]
        have hp : ¬ p2 = p := fun h => hgp (h ▸ hgp2)
        rw [List.find?_cons_of_pos _ hgk, if_neg hp,
          List.find?_cons_of_pos _ hgk]
      · have hgk : ¬ (pathKey p2 g = true) := by
          simp only [pathKey, beq_iff_eq]
          exact hgp2
        rw [List.find?_cons_of_neg _ hgk, ih]
        by_cases hp : p2 = p
        · subst hp
          have hgk2 : ¬ (pathKey p2 g = true) := hgk
          rw [if_pos rfl, if_pos rfl, List.find?_cons_of_neg _ hgk2]
        · rw [if_neg hp, if_neg hp, List.find?_cons_of_neg _ hgk]

theorem find?_buildGroups_loop (xs : List (String × FaceInfo))
    (acc : List PhotoGroup) (p : String) :
    (xs.foldl (fun gs x => addFace gs x.1 x.2) acc).find? (pathKey p) =
      match acc.find? (pathKey p) with
      | some g => some { g with
          faces := g.faces ++ collect p xs,
          max_similarity := (collect p xs).foldl
            (fun a f => maxIfGt a f.similarity) g.max_similarity }
      | none =>
        if collect p xs = [] then none
        else some ⟨p, collect p xs,
          (collect p xs).foldl (fun a f => maxIfGt a f.similarity) 0,
          0, 0, none⟩ := by
  induction xs generalizing acc with
  | nil =>
    cases hacc : acc.find? (pathKey p) with
    | none => simp [collect, hacc]
    | some g => simp [collect, hacc]
  | cons x xs ih =>
    obtain ⟨px, f⟩ := x
    rw [List.foldl_cons, ih, find?_addFace]
    by_cases hp : p = px
    · subst hp
      have hc : collect p ((p, f) :: xs) = f :: collect p xs := by
        simp [collect]
      cases hacc : acc.find? (pathKey p) with
      | some g => simp [hacc, hc, List.foldl_cons]
      | none => simp [hacc, hc, List.foldl_cons]
    · have hc : collect p ((px, f) :: xs) = collect p xs := by
        simp [collect, beq_eq_false_iff_ne.mpr (Ne.symm hp)]
      have hp2 : ¬ p = px := hp
      cases hacc : acc.find? (pathKey p) with
      | some g => simp [hacc, hc, hp2]
      | none => simp [hacc, hc, hp2]

theorem find?_buildGroups (xs : List (String × FaceInfo)) (p : String) :
    (buildGroups xs).find? (pathKey p) =
      if collect p xs = [] then none
      else some ⟨p, collect p xs,
        (collect p xs).foldl (fun a f => maxIfGt a f.similarity) 0,
        0, 0, none⟩ := by
  have h := find?_buildGroups_loop xs [] p
  rw [List.find?_nil] at h
  exact h

theorem maxIfGt_eq_max (a s : ℚ) : maxIfGt a s = max a s := by
  unfold maxIfGt
  rcases lt_or_ge a s with h | h
  · rw [if_pos h, max_eq_right h.le]
  · rw [if_neg (not_lt.mpr h), max_eq_left h]

theorem foldl_maxIfGt_eq (l : List FaceInfo) (a : ℚ) :
    l.foldl (fun x f => maxIfGt x f.similarity) a =
      (l.map (fun f => f.similarity)).foldl max a := by
  induction l generalizing a with
  | nil => rfl
  | cons f fs ih =>
    simp only [List.foldl_cons, List.map_cons]
    rw [maxIfGt_eq_max]
    exact ih _

/-- C3 (counterexample): with threshold `-1`, the only face of photo
`a.jpg` survives with similarity `-1`, yet the produced result reports
`max_similarity = 0` — not the members maximum `-1` — while
`avg_similarity = -1` and `num_matches = 1`. -/
theorem negative_similarity_max_cex :
    (find_photos_by_embedding faceState1 [-1] (-1) 5 none).map
      (fun r => r.matches'.map
        (fun g => (g.max_similarity, g.avg_similarity, g.num_matches))) =
      .ok [((0 : ℚ), (-1 : ℚ), 1)] ∧ (0 : ℚ) ≠ -1 := by
  constructor
  · with_unfolding_all decide
  · with_unfolding_all decide

/-- C3 (amended): for every grouped-and-finalized face-mode result and
every image path with a non-empty member set, the produced record has
`num_matches` equal to the member count and `avg_similarity` equal to the
members arithmetic mean, but `max_similarity` equal to
`max 0 (members maximum)` (a fold of `max` starting at `0`): the true
maximum whenever some member similarity is nonnegative, and `0` — not the
true, negative maximum — when all member similarities are negative. -/
theorem group_aggregation_fields (xs : List (String × FaceInfo)) (p : String)
    (g : PhotoGroup)
    (hg : ((buildGroups xs).map finalizeGroup).find? (pathKey p) = some g) :
    collect p xs ≠ [] ∧
    g.num_matches = (collect p xs).length ∧
    g.avg_similarity =
      ((collect p xs).map (fun f => f.similarity)).sum /
        ((collect p xs).length : ℚ) ∧
    g.max_similarity =
      ((collect p xs).map (fun f => f.similarity)).foldl max 0 := by
  rw [List.find?_map] at hg
  have hk : (pathKey p ∘ finalizeGroup) = pathKey p := rfl
  rw [hk, find?_buildGroups] at hg
  by_cases hc : collect p xs = []
  · rw [if_pos hc] at hg
    simp at hg
  · rw [if_neg hc] at hg
    rw [Option.map_some'] at hg
    cases hg
    refine ⟨hc, rfl, rfl, ?_⟩
    exact foldl_maxIfGt_eq (collect p xs) 0

/-- Witness for C3 at a concrete two-face group. -/
theorem group_aggregation_fields_w :
    collect "a.jpg" [("a.jpg", ⟨[], 1/2, 1⟩), ("a.jpg", ⟨[], -1/4, 1⟩)] ≠ [] ∧
    (finalizeGroup ⟨"a.jpg", [⟨[], 1/2, 1⟩, ⟨[], -1/4, 1⟩], 1/2, 0, 0,
        none⟩).num_matches =
      (collect "a.jpg" [("a.jpg", ⟨[], 1/2, 1⟩), ("a.jpg", ⟨[], -1/4, 1⟩)]).length ∧
    (finalizeGroup ⟨"a.jpg", [⟨[], 1/2, 1⟩, ⟨[], -1/4, 1⟩], 1/2, 0, 0,
        none⟩).avg_similarity =
      ((collect "a.jpg" [("a.jpg", ⟨[], 1/2, 1⟩), ("a.jpg", ⟨[], -1/4, 1⟩)]).map
          (fun f => f.similarity)).sum /
        ((collect "a.jpg" [("a.jpg", ⟨[], 1/2, 1⟩),
            ("a.jpg", ⟨[], -1/4, 1⟩)]).length : ℚ) ∧
    (finalizeGroup ⟨"a.jpg", [⟨[], 1/2, 1⟩, ⟨[], -1/4, 1⟩], 1/2, 0, 0,
        none⟩).max_similarity =
      ((collect "a.jpg" [("a.jpg", ⟨[], 1/2, 1⟩), ("a.jpg", ⟨[], -1/4, 1⟩)]).map
          (fun f => f.similarity)).foldl max 0 :=
  group_aggregation_fields
    [("a.jpg", ⟨[], 1/2, 1⟩), ("a.jpg", ⟨[], -1/4, 1⟩)] "a.jpg"
    (finalizeGroup ⟨"a.jpg", [⟨[], 1/2, 1⟩, ⟨[], -1/4, 1⟩], 1/2, 0, 0, none⟩)
    (by with_unfolding_all decide)


/-! ## C4: no index/metadata count check -/

/-- C4 (counterexample): a loaded pair with 2 vectors and 1 metadata
record; `search_with_threshold` proceeds instead of failing — the fault is
not detected — and silently returns the ordinal-1 candidate with a `None`
metadata field. -/
theorem count_mismatch_silent_cex :
    (mismatchedState.index.getD []).length ≠ mismatchedState.metadata.length ∧
    mismatchedState.search_with_threshold [1] 0 5 =
      .ok [⟨0, 1, 0, some ⟨"a.jpg", some "face", some [1, 2, 3, 4], some 1⟩⟩,
        ⟨1, 1, 0, none⟩] := by
  constructor
  · with_unfolding_all decide
  · with_unfolding_all decide

/-- C4 (amended): nothing compares the vector count of the loaded index
with the metadata record count: `PhotoRetriever` initialization succeeds on
any mismatched pair, and every search proceeds, attaching to each surviving
candidate `metadata[ordinal]` when the ordinal is within the metadata list
and `None` otherwise; no `IndexCorrupt`-style failure exists in the code. -/
theorem no_count_check (fsI : IndexFS) (fsM : MetaFS) (ip mp : String)
    (vs : List Embedding) (ms : List MetaRecord)
    (hI : fsI ip = some vs) (hM : fsM mp = some ms) :
    retriever_init fsI fsM ip mp = .ok ⟨some vs, ms⟩ ∧
    ∀ (q : Embedding) (t : ℚ) (k : Nat),
      ∃ rs, (FaissState.mk (some vs) ms).search_with_threshold q t k = .ok rs ∧
        ∀ r ∈ rs, r.metadata = ms[r.face_id.toNat]? := by
  constructor
  · simp [retriever_init, load_index, load_metadata, hI, hM]
  · intro q t k
    refine ⟨swtResults vs ms q t k, rfl, ?_⟩
    intro r hr
    unfold swtResults at hr
    have hr2 := mem_pySortBy.mp hr
    rcases List.mem_filterMap.mp hr2 with ⟨di, _, hdi⟩
    unfold toResult at hdi
    split at hdi
    · cases hdi
    · split at hdi
      · cases hdi
        rfl
      · cases hdi

/-- Witness for C4: a concrete mismatched pair of files (2 vectors, 1
record) loads successfully and searches proceed. -/
theorem no_count_check_w :
    retriever_init (fun _ => some [[1], [1]])
        (fun _ => some [⟨"a.jpg", some "face", some [1, 2, 3, 4], some 1⟩])
        "faiss.index" "metadata.json" =
      .ok ⟨some [[1], [1]], [⟨"a.jpg", some "face", some [1, 2, 3, 4], some 1⟩]⟩ ∧
    ∀ (q : Embedding) (t : ℚ) (k : Nat),
      ∃ rs, (FaissState.mk (some [[1], [1]])
          [⟨"a.jpg", some "face", some [1, 2, 3, 4], some 1⟩]).search_with_threshold
            q t k = .ok rs ∧
        ∀ r ∈ rs, r.metadata =
          [(⟨"a.jpg", some "face", some [1, 2, 3, 4], some 1⟩ :
            MetaRecord)][r.face_id.toNat]? :=
  no_count_check (fun _ => some [[1], [1]])
    (fun _ => some [⟨"a.jpg", some "face", some [1, 2, 3, 4], some 1⟩])
    "faiss.index" "metadata.json" [[1], [1]]
    [⟨"a.jpg", some "face", some [1, 2, 3, 4], some 1⟩] rfl rfl


/-! ## C8: no-match outcome is a structured result, not an exception -/

/-- C8: whenever no candidate clears the similarity threshold, the
photo-finding operations return a structured `.ok` result (never an
exception) with `success = false`, a non-empty explanatory message and an
empty match list — for the text branch of `find_photos`, for its selfie
branch, and for `find_photos_by_embedding`. -/
theorem no_match_structured_result (pr : Provider) (vs : List Embedding)
    (meta : List MetaRecord) (sp tq : String) (q : Embedding) (t : ℚ)
    (k : Nat) (nm : Option String) :
    (tq ≠ "" → swtResults vs meta (pr.encode_text tq) t k = [] →
      ∃ r, find_photos pr ⟨some vs, meta⟩ none (some tq) t k = .ok r ∧
        r.success = false ∧ r.message ≠ "" ∧ r.matches' = []) ∧
    (sp ≠ "" → pr.extract_single_face sp = some q →
      swtResults vs meta q t k = [] →
      ∃ r, find_photos pr ⟨some vs, meta⟩ (some sp) none t k = .ok r ∧
        r.success = false ∧ r.message ≠ "" ∧ r.matches' = []) ∧
    (swtResults vs meta q t k = [] →
      ∃ r, find_photos_by_embedding ⟨some vs, meta⟩ q t k nm = .ok r ∧
        r.success = false ∧ r.message ≠ "" ∧ r.matches' = []) := by
  refine ⟨?_, ?_, ?_⟩
  · intro htq hempty
    have hb : (tq == "") = false := beq_eq_false_iff_ne.mpr htq
    have h1 : find_photos pr ⟨some vs, meta⟩ none (some tq) t k =
        findPhotosTail ⟨some vs, meta⟩ (pr.encode_text tq)
          (.textInfo tq (pr.encode_text tq).length t) t k := by
      simp [find_photos, truthy, hb]
    have h2 : (FaissState.mk (some vs) meta).search_with_threshold
        (pr.encode_text tq) t k = .ok [] := by
      simp [FaissState.search_with_threshold, hempty]
    refine ⟨⟨false, "No confident matches found. Try lowering the threshold.",
      .textInfo tq (pr.encode_text tq).length t, [], 0⟩, ?_, rfl, by simp, rfl⟩
    rw [h1]
    unfold findPhotosTail
    rw [h2]
    rfl
  · intro hsp he hempty
    have hb : (sp == "") = false := beq_eq_false_iff_ne.mpr hsp
    have h1 : find_photos pr ⟨some vs, meta⟩ (some sp) none t k =
        findPhotosTail ⟨some vs, meta⟩ q (.faceInfo sp q.length t) t k := by
      simp [find_photos, truthy, hb, he]
    have h2 : (FaissState.mk (some vs) meta).search_with_threshold q t k =
        .ok [] := by
      simp [FaissState.search_with_threshold, hempty]
    refine ⟨⟨false, "No confident matches found. Try lowering the threshold.",
      .faceInfo sp q.length t, [], 0⟩, ?_, rfl, by simp, rfl⟩
    rw [h1]
    unfold findPhotosTail
    rw [h2]
    rfl
  · intro hempty
    have h2 : (FaissState.mk (some vs) meta).search_with_threshold q t k =
        .ok [] := by
      simp [FaissState.search_with_threshold, hempty]
    refine ⟨⟨false, "No photos found. Try lowering the threshold.",
      .personInfo nm q.length t, [], 0⟩, ?_, rfl, by simp, rfl⟩
    unfold find_photos_by_embedding
    rw [h2]
    rfl

/-- Witness for C8: a one-vector index and threshold 2, which nothing can
clear. -/
theorem no_match_structured_result_w :
    (("dog" : String) ≠ "" →
      swtResults [[1]] [] (unitProvider.encode_text "dog") 2 5 = [] →
      ∃ r, find_photos unitProvider ⟨some [[1]], []⟩ none (some "dog") 2 5 =
          .ok r ∧
        r.success = false ∧ r.message ≠ "" ∧ r.matches' = []) ∧
    (("s.jpg" : String) ≠ "" →
      unitProvider.extract_single_face "s.jpg" = some [1] →
      swtResults [[1]] [] [1] 2 5 = [] →
      ∃ r, find_photos unitProvider ⟨some [[1]], []⟩ (some "s.jpg") none 2 5 =
          .ok r ∧
        r.success = false ∧ r.message ≠ "" ∧ r.matches' = []) ∧
    (swtResults [[1]] [] [1] 2 5 = [] →
      ∃ r, find_photos_by_embedding ⟨some [[1]], []⟩ [1] 2 5 none = .ok r ∧
        r.success = false ∧ r.message ≠ "" ∧ r.matches' = []) :=
  no_match_structured_result unitProvider [[1]] [] "s.jpg" "dog" [1] 2 5 none


/-! ## C5: threshold filtering and result ordering -/

theorem distOrd_total (a b : Nat × ℚ) : distOrd a b || distOrd b a := by
  simp only [distOrd, Bool.or_eq_true, decide_eq_true_eq]
  rcases lt_trichotomy a.2 b.2 with h | h | h
  · exact Or.inl (Or.inl h)
  · rcases Nat.le_total a.1 b.1 with hn | hn
    · exact Or.inl (Or.inr ⟨h, hn⟩)
    · exact Or.inr (Or.inr ⟨h.symm, hn⟩)
  · exact Or.inr (Or.inl h)

theorem distOrd_trans (a b c : Nat × ℚ) (hab : distOrd a b)
    (hbc : distOrd b c) : distOrd a c := by
  simp only [distOrd, decide_eq_true_eq] at hab hbc ⊢
  rcases hab with h1 | ⟨h1, h1n⟩
  · rcases hbc with h2 | ⟨h2, h2n⟩
    · exact Or.inl (h1.trans h2)
    · exact Or.inl (h2 ▸ h1)
  · rcases hbc with h2 | ⟨h2, h2n⟩
    · refine Or.inl ?_
      rw [h1]
      exact h2
    · exact Or.inr ⟨h1.trans h2, h1n.trans h2n⟩

theorem sortedCands_pairwise (vs : List Embedding) (q : Embedding) :
    (pySortBy distOrd ((vs.map (fun v => sqDist q v)).enum)).Pairwise
      (fun a b => a.2 < b.2 ∨ (a.2 = b.2 ∧ a.1 < b.1)) := by
  have hP : (pySortBy distOrd ((vs.map (fun v => sqDist q v)).enum)).Pairwise
      (fun a b => distOrd a b) :=
    pairwise_pySortBy distOrd_total distOrd_trans
  have hnd : ((pySortBy distOrd ((vs.map (fun v => sqDist q v)).enum)).map
      Prod.fst).Nodup := by
    have hperm := (pySortBy_perm distOrd
      ((vs.map (fun v => sqDist q v)).enum)).map Prod.fst
    exact hperm.symm.nodup (List.nodup_enum_map_fst _)
  have hne : (pySortBy distOrd ((vs.map (fun v => sqDist q v)).enum)).Pairwise
      (fun a b => a.1 ≠ b.1) := List.pairwise_map.mp hnd
  refine (hP.and hne).imp ?_
  intro a b hab
  rcases hab with ⟨h1, h2⟩
  simp only [distOrd, decide_eq_true_eq] at h1
  rcases h1 with h | ⟨he, hle⟩
  · exact Or.inl h
  · exact Or.inr ⟨he, lt_of_le_of_ne hle h2⟩

theorem filterMap_toResult_replicate (meta : List MetaRecord) (t : ℚ)
    (n : Nat) :
    (List.replicate n ((4 : ℚ), (-1 : Int))).filterMap (toResult meta t) =
      [] := by
  induction n with
  | zero => rfl
  | succ n ih => simp [List.replicate_succ, List.filterMap_cons, toResult, ih]

theorem resultsFM_pairwise (vs : List Embedding) (meta : List MetaRecord)
    (q : Embedding) (t : ℚ) (k : Nat) :
    ((faissSearch vs q k).filterMap (toResult meta t)).Pairwise
      (fun a b => b.similarity < a.similarity ∨
        (b.similarity = a.similarity ∧ a.face_id < b.face_id)) := by
  unfold faissSearch
  rw [List.filterMap_append, filterMap_toResult_replicate, List.append_nil,
    List.filterMap_map]
  rw [List.pairwise_filterMap]
  have hstrict := List.Pairwise.sublist (List.take_sublist k _)
    (sortedCands_pairwise vs q)
  refine hstrict.imp ?_
  intro a b hab x hx y hy
  have ha : ((a.1 : Int)) ≠ -1 := by omega
  have hb : ((b.1 : Int)) ≠ -1 := by omega
  rw [Option.mem_def] at hx hy
  simp only [Function.comp_apply] at hx hy
  unfold toResult at hx hy
  rw [if_neg ha] at hx
  rw [if_neg hb] at hy
  split at hx
  · rw [Option.some_inj] at hx
    subst hx
    split at hy
    · rw [Option.some_inj] at hy
      subst hy
      rcases hab with h | ⟨he, hn⟩
      · left
        show (1 : ℚ) - b.2 / 2 < 1 - a.2 / 2
        linarith
      · right
        refine ⟨?_, ?_⟩
        · show (1 : ℚ) - b.2 / 2 = 1 - a.2 / 2
          rw [he]
        · show ((a.1 : Int)) < ((b.1 : Int))
          exact_mod_cast hn
    · cases hy
  · cases hx

theorem swtResults_eq_filterMap (vs : List Embedding) (meta : List MetaRecord)
    (q : Embedding) (t : ℚ) (k : Nat) :
    swtResults vs meta q t k =
      (faissSearch vs q k).filterMap (toResult meta t) := by
  unfold swtResults
  apply pySortBy_of_sorted
  refine (resultsFM_pairwise vs meta q t k).imp ?_
  intro a b hab
  show simOrd a b = true
  simp only [simOrd, decide_eq_true_eq]
  rcases hab with h | ⟨he, _⟩
  · exact le_of_lt h
  · exact le_of_eq he

theorem filterMap_toResult_map_eq (meta : List MetaRecord) (t : ℚ)
    (l : List (ℚ × Int)) :
    (l.filterMap (toResult meta t)).map (fun r => (r.distance, r.face_id)) =
      l.filter (fun di => decide (di.2 ≠ -1 ∧ t ≤ 1 - di.1 / 2)) := by
  induction l with
  | nil => rfl
  | cons di l ih =>
    by_cases h1 : di.2 = -1
    · simp [List.filterMap_cons, List.filter_cons, toResult, h1, ih]
    · by_cases h2 : t ≤ 1 - di.1 / 2
      · simp [List.filterMap_cons, List.filter_cons, toResult, h1, h2, ih]
      · simp [List.filterMap_cons, List.filter_cons, toResult, h1, h2, ih]

/-- C5: for every query, threshold and candidate pool,
`search_with_threshold` discards exactly the candidates carrying the
invalid ordinal marker `-1` and those whose similarity is strictly below
the threshold, and returns the survivors sorted by descending similarity
with ties broken by ascending ordinal. -/
theorem search_with_threshold_filter_sort (vs : List Embedding)
    (meta : List MetaRecord) (q : Embedding) (t : ℚ) (k : Nat) :
    ∃ rs, (FaissState.mk (some vs) meta).search_with_threshold q t k =
        .ok rs ∧
      rs.map (fun r => (r.distance, r.face_id)) =
        (faissSearch vs q k).filter
          (fun di => decide (di.2 ≠ -1 ∧ t ≤ 1 - di.1 / 2)) ∧
      rs.Pairwise (fun a b => b.similarity < a.similarity ∨
        (b.similarity = a.similarity ∧ a.face_id < b.face_id)) := by
  refine ⟨swtResults vs meta q t k, rfl, ?_, ?_⟩
  · rw [swtResults_eq_filterMap]
    exact filterMap_toResult_map_eq meta t (faissSearch vs q k)
  · rw [swtResults_eq_filterMap]
    exact resultsFM_pairwise vs meta q t k

/-! ## C6: monotonicity in the threshold -/

theorem length_filterMap_mono {α β : Type _} {f g : α → Option β}
    (h : ∀ x, (f x).isSome = true → (g x).isSome = true) (l : List α) :
    (l.filterMap f).length ≤ (l.filterMap g).length := by
  induction l with
  | nil => exact Nat.le_refl 0
  | cons x xs ih =>
    rw [List.filterMap_cons, List.filterMap_cons]
    cases hf : f x with
    | none =>
      cases hg : g x with
      | none => exact ih
      | some c => exact Nat.le_succ_of_le ih
    | some b =>
      have hgs := h x (by simp [hf])
      cases hg : g x with
      | none => simp [hg] at hgs
      | some c => simpa using Nat.succ_le_succ ih

/-- C6: `search_with_threshold` is monotonic in the threshold: for the same
query and candidate pool and thresholds `t1 ≤ t2`, the result count at
`t2` is at most the result count at `t1`. -/
theorem search_with_threshold_monotone (vs : List Embedding)
    (meta : List MetaRecord) (q : Embedding) (k : Nat) (t1 t2 : ℚ)
    (h : t1 ≤ t2) :
    ∃ r1 r2,
      (FaissState.mk (some vs) meta).search_with_threshold q t1 k = .ok r1 ∧
      (FaissState.mk (some vs) meta).search_with_threshold q t2 k = .ok r2 ∧
      r2.length ≤ r1.length := by
  refine ⟨swtResults vs meta q t1 k, swtResults vs meta q t2 k, rfl, rfl, ?_⟩
  unfold swtResults
  rw [length_pySortBy, length_pySortBy]
  apply length_filterMap_mono
  intro di
  unfold toResult
  by_cases h1 : di.2 = -1
  · simp [h1]
  · by_cases h2 : t2 ≤ 1 - di.1 / 2
    · simp [h1, h2, h.trans h2]
    · simp [h1, h2]

/-- Witness for C6 at a one-vector index with thresholds 0 and 1/2. -/
theorem search_with_threshold_monotone_w :
    ∃ r1 r2,
      (FaissState.mk (some [[1]]) []).search_with_threshold [1] 0 5 = .ok r1 ∧
      (FaissState.mk (some [[1]]) []).search_with_threshold [1] (1/2) 5 =
        .ok r2 ∧
      r2.length ≤ r1.length :=
  search_with_threshold_monotone [[1]] [] [1] 5 0 (1/2) (by norm_num)

end PhotoGPT
